import Mathlib

/-!
Shallow embedding of the MiracleBox DLC-tracking client.

The repository holds two near-duplicate copies of one React client:
  * `src/Miracle1/SuivisStock/dlc-front/src/App.tsx` (embedded below in
    namespace `MiracleBox.App`), and
  * `src/unnamed/part_000` (embedded in namespace `MiracleBox.AltApp`).

The data model, the `errMsg` helper, the `badge` urgency classifier and
`fetchRefs` are textually identical in the two copies and are embedded once
at the top level of namespace `MiracleBox`.  The `onSubmit` and `disposeItem`
handlers differ between the copies: the `App.tsx` copy schedules
`setTimeout(..., 3000)` calls that clear the feedback message/error, the
`part_000` copy schedules no timers.  Both versions are embedded.

Network I/O is modelled by oracles: each handler takes the outcome of the
HTTP calls it performs as an argument, and returns the new client state
together with the list of requests it issued and the list of timers it
scheduled.  Date parsing (dayjs) is out of scope per the spec; the classifier
is embedded as a function of the already-computed whole-day difference.
-/

set_option autoImplicit false

namespace MiracleBox

/-- The `Item` record held in the client's cached list
(`App.tsx` lines 7–15 / `part_000` lines 6–14). -/
structure Item where
  id : Int
  name : String
  category : String
  perishable : Bool
  dlc : String
  location : String
  created_at : String
deriving DecidableEq, Repr

/-- The draft form state (`useState` initializer at `App.tsx` lines 37–43 /
`part_000` lines 32–38). -/
structure Form where
  name : String
  category : String
  perishable : Bool
  dlc : String
  location : String
deriving DecidableEq, Repr

/-- Disposal outcome (`type Outcome = "consomme" | "perdu"`). -/
inductive Outcome where
  | consomme
  | perdu
deriving DecidableEq, Repr

/-- The whole client-held state: the five `useState` hooks of the component
(categories, locations, items, loading, form, message, error). -/
structure AppState where
  categories : List String
  locations : List String
  items : List Item
  loading : Bool
  form : Form
  message : Option String
  error : Option String
deriving DecidableEq, Repr

/-- Initial form: `{ name: "", category: "", perishable: true, dlc: "", location: "" }`. -/
def initialForm : Form :=
  { name := "", category := "", perishable := true, dlc := "", location := "" }

/-- Initial client state: empty vocabularies, empty item list, not loading,
initial form, no feedback. -/
def initialState : AppState :=
  { categories := [], locations := [], items := [], loading := false,
    form := initialForm, message := none, error := none }

/-- HTTP requests the client can issue. -/
inductive Request where
  | getCategories
  | getLocations
  | getItems
  | postItem (form : Form)
  | postDispose (id : Int) (outcome : Outcome)
deriving DecidableEq, Repr

/-- Outcome of a `fetch` against an endpoint that is checked with `res.ok`:
either a response with its `ok` flag and body text, or a transport failure
(`fetch` rejecting), carrying the thrown error's message. -/
inductive NetResult where
  | resp (ok : Bool) (body : String)
  | netfail (msg : String)
deriving DecidableEq, Repr

/-- Outcome of a `fetch(...).then(r => r.json())` pipeline: a decoded value,
or a failure carrying the thrown error's message. -/
inductive FetchResult (α : Type) where
  | success (val : α)
  | failure (msg : String)
deriving DecidableEq, Repr

/-- A JavaScript thrown value, as discriminated by `errMsg`:
an `Error` (with its message), a string, or anything else
(whose `JSON.stringify` either yields a string or itself throws). -/
inductive Thrown where
  | jsError (message : String)
  | jsString (s : String)
  | other (json : Option String)
deriving DecidableEq, Repr

/-- Function `errMsg` (`App.tsx` lines 22–30 / `part_000` lines 21–25): an `Error`
yields its message, a string yields itself, anything else its JSON
serialization, falling back to `"Erreur inconnue"` when even that throws. -/
def errMsg : Thrown → String
  | Thrown.jsError m => m
  | Thrown.jsString s => s
  | Thrown.other (some j) => j
  | Thrown.other none => "Erreur inconnue"

/-- Urgency tiers of the classifier (spec section 4.1). -/
inductive Tier where
  | expired
  | critical
  | warning
  | ok
deriving DecidableEq, Repr

/-- The CSS class string the code returns for each tier. -/
def tierClass : Tier → String
  | Tier.expired => "bg-red-600 text-white"
  | Tier.critical => "bg-red-500 text-white"
  | Tier.warning => "bg-yellow-400 text-black"
  | Tier.ok => "bg-green-500 text-white"

/-- Classifier `badge` (`App.tsx` lines 74–81 / `part_000` lines 64–71), as a function of
the whole-day difference `diff = dayjs(dlc).diff(dayjs(), "day")` (expiry
minus now, truncated to whole days; dayjs parsing is out of scope). -/
def badge (diff : Int) : String :=
  if diff < 0 then "bg-red-600 text-white"
  else if diff ≤ 3 then "bg-red-500 text-white"
  else if diff ≤ 7 then "bg-yellow-400 text-black"
  else "bg-green-500 text-white"

/-- Semantics of JavaScript `String.prototype.trim` as used by the
validation check `!form.name.trim()`: remove leading and trailing
whitespace.  (Embedded as a structurally recursive list function so that
concrete instances evaluate in the kernel.) -/
def strTrim (s : String) : String :=
  ⟨((s.data.dropWhile Char.isWhitespace).reverse.dropWhile Char.isWhitespace).reverse⟩

/-- An action a scheduled `setTimeout` callback performs: clearing the
success message (`setMessage(null)`) or the error message (`setError(null)`). -/
inductive TimerAction where
  | clearMessage
  | clearError
deriving DecidableEq, Repr

/-- Firing a scheduled timer callback against the current state. -/
def fireTimer : TimerAction → AppState → AppState
  | TimerAction.clearMessage, s => { s with message := none }
  | TimerAction.clearError, s => { s with error := none }

/-- Result of running an event handler: the new client state, the HTTP
requests it issued (in order), and the `setTimeout` timers it scheduled,
each a delay in milliseconds paired with the callback's action. -/
structure StepResult where
  state : AppState
  requests : List Request
  timers : List (Nat × TimerAction)
deriving DecidableEq, Repr

/-- Effect of `fetchItems` applied to a successfully decoded item list
(`App.tsx` lines 62–65 / `part_000` lines 53–56): `setItems(data)` replaces
the cached list wholesale. -/
def fetchItemsApply (data : List Item) (s : AppState) : AppState :=
  { s with items := data }

/-- The state-update phase of `fetchRefs`
(`App.tsx` lines 48–59 / `part_000` lines 42–51), run after `Promise.all`
resolves with `cats` and `locs`.  `snapshot` is the `form` value the closure
captured when `fetchRefs` was created (the render in which it was invoked):
the guards `!form.category` / `!form.location` read this snapshot, while the
functional updates `setForm(f => ...)` apply to the current state `s`. -/
def fetchRefsApply (snapshot : Form) (cats locs : List String) (s : AppState) : AppState :=
  let s1 : AppState := { s with categories := cats, locations := locs }
  let s2 : AppState :=
    if snapshot.category = "" then
      match cats with
      | [] => s1
      | c :: _ => { s1 with form := { s1.form with category := c } }
    else s1
  if snapshot.location = "" then
    match locs with
    | [] => s2
    | l :: _ => { s2 with form := { s2.form with location := l } }
  else s2

/-- The whole `fetchRefs` operation: both vocabulary requests are issued
(via `Promise.all`) before either result is consumed; the state update runs
only when both fetches succeed — if either fails, the `await` throws before
any `set*` call, so the state is untouched. -/
def fetchRefsRun (snapshot : Form) (catsRes locsRes : FetchResult (List String))
    (s : AppState) : StepResult :=
  match catsRes, locsRes with
  | FetchResult.success cats, FetchResult.success locs =>
    { state := fetchRefsApply snapshot cats locs s,
      requests := [Request.getCategories, Request.getLocations], timers := [] }
  | _, _ =>
    { state := s,
      requests := [Request.getCategories, Request.getLocations], timers := [] }

/-- Oracle for one run of `onSubmit`: the outcome of the `POST /items` call
and, if reached, of the follow-up `GET /items` refresh. -/
structure SubmitOracle where
  createRes : NetResult
  itemsRes : FetchResult (List Item)
deriving DecidableEq, Repr

namespace App

/-- Handler `onSubmit` of the `App.tsx` copy (lines 84–114).  Sets loading, clears
prior feedback; throws `"Nom requis"` / `"DLC requise"` before any network
call when validation fails; otherwise posts the form, treats a non-ok
response as `Error(t || "Erreur API")`, and on success sets the success
message (with a 3000 ms clear timer), resets `name`/`dlc`, and refreshes the
item list.  Every caught error is surfaced via `errMsg` with a 3000 ms clear
timer; `finally` clears the loading flag. -/
def onSubmit (s : AppState) (o : SubmitOracle) : StepResult :=
  let s0 : AppState := { s with loading := true, message := none, error := none }
  if strTrim s0.form.name = "" then
    { state := { s0 with error := some (errMsg (Thrown.jsError "Nom requis")), loading := false },
      requests := [], timers := [(3000, TimerAction.clearError)] }
  else if s0.form.dlc = "" then
    { state := { s0 with error := some (errMsg (Thrown.jsError "DLC requise")), loading := false },
      requests := [], timers := [(3000, TimerAction.clearError)] }
  else
    match o.createRes with
    | NetResult.netfail m =>
      { state := { s0 with error := some (errMsg (Thrown.jsError m)), loading := false },
        requests := [Request.postItem s0.form], timers := [(3000, TimerAction.clearError)] }
    | NetResult.resp ok body =>
      if ok then
        let s1 : AppState := { s0 with message := some "Article ajouté ✅" }
        let s2 : AppState := { s1 with form := { s1.form with name := "", dlc := "" } }
        match o.itemsRes with
        | FetchResult.success data =>
          { state := { fetchItemsApply data s2 with loading := false },
            requests := [Request.postItem s0.form, Request.getItems],
            timers := [(3000, TimerAction.clearMessage)] }
        | FetchResult.failure m =>
          { state := { s2 with error := some (errMsg (Thrown.jsError m)), loading := false },
            requests := [Request.postItem s0.form, Request.getItems],
            timers := [(3000, TimerAction.clearMessage), (3000, TimerAction.clearError)] }
      else
        { state := { s0 with
            error := some (errMsg (Thrown.jsError (if body = "" then "Erreur API" else body))),
            loading := false },
          requests := [Request.postItem s0.form], timers := [(3000, TimerAction.clearError)] }

/-- Handler `disposeItem` of the `App.tsx` copy (lines 117–139).  Clears prior
feedback, posts the disposal; a non-ok response throws
`Error(t || "Erreur API")`; on success filters the item with the given id
out of the cached list and sets the outcome message; errors and messages
each get a 3000 ms clear timer. -/
def disposeItem (s : AppState) (k : Int) (oc : Outcome) (o : NetResult) : StepResult :=
  let s0 : AppState := { s with message := none, error := none }
  match o with
  | NetResult.netfail m =>
    { state := { s0 with error := some (errMsg (Thrown.jsError m)) },
      requests := [Request.postDispose k oc], timers := [(3000, TimerAction.clearError)] }
  | NetResult.resp ok body =>
    if ok then
      { state := { s0 with
          items := s0.items.filter (fun it => it.id != k),
          message := some (match oc with
            | Outcome.consomme => "Marqué consommé ✅"
            | Outcome.perdu => "Marqué perdu ❌") },
        requests := [Request.postDispose k oc], timers := [(3000, TimerAction.clearMessage)] }
    else
      { state := { s0 with
          error := some (errMsg (Thrown.jsError (if body = "" then "Erreur API" else body))) },
        requests := [Request.postDispose k oc], timers := [(3000, TimerAction.clearError)] }

end App

namespace AltApp

/-- Handler `onSubmit` of the `part_000` copy (lines 73–98).  Same control flow as
the `App.tsx` copy but schedules no `setTimeout`: feedback persists until
the next action overwrites it. -/
def onSubmit (s : AppState) (o : SubmitOracle) : StepResult :=
  let s0 : AppState := { s with loading := true, message := none, error := none }
  if strTrim s0.form.name = "" then
    { state := { s0 with error := some (errMsg (Thrown.jsError "Nom requis")), loading := false },
      requests := [], timers := [] }
  else if s0.form.dlc = "" then
    { state := { s0 with error := some (errMsg (Thrown.jsError "DLC requise")), loading := false },
      requests := [], timers := [] }
  else
    match o.createRes with
    | NetResult.netfail m =>
      { state := { s0 with error := some (errMsg (Thrown.jsError m)), loading := false },
        requests := [Request.postItem s0.form], timers := [] }
    | NetResult.resp ok body =>
      if ok then
        let s1 : AppState := { s0 with message := some "Article ajouté ✅" }
        let s2 : AppState := { s1 with form := { s1.form with name := "", dlc := "" } }
        match o.itemsRes with
        | FetchResult.success data =>
          { state := { fetchItemsApply data s2 with loading := false },
            requests := [Request.postItem s0.form, Request.getItems], timers := [] }
        | FetchResult.failure m =>
          { state := { s2 with error := some (errMsg (Thrown.jsError m)), loading := false },
            requests := [Request.postItem s0.form, Request.getItems], timers := [] }
      else
        { state := { s0 with
            error := some (errMsg (Thrown.jsError (if body = "" then "Erreur API" else body))),
            loading := false },
          requests := [Request.postItem s0.form], timers := [] }

/-- Handler `disposeItem` of the `part_000` copy (lines 100–119).  Same control flow
as the `App.tsx` copy but schedules no `setTimeout`. -/
def disposeItem (s : AppState) (k : Int) (oc : Outcome) (o : NetResult) : StepResult :=
  let s0 : AppState := { s with message := none, error := none }
  match o with
  | NetResult.netfail m =>
    { state := { s0 with error := some (errMsg (Thrown.jsError m)) },
      requests := [Request.postDispose k oc], timers := [] }
  | NetResult.resp ok body =>
    if ok then
      { state := { s0 with
          items := s0.items.filter (fun it => it.id != k),
          message := some (match oc with
            | Outcome.consomme => "Marqué consommé ✅"
            | Outcome.perdu => "Marqué perdu ❌") },
        requests := [Request.postDispose k oc], timers := [] }
    else
      { state := { s0 with
          error := some (errMsg (Thrown.jsError (if body = "" then "Erreur API" else body))) },
        requests := [Request.postDispose k oc], timers := [] }

end AltApp

end MiracleBox

namespace MiracleBox

/-- C1: for every whole-day difference `d`, the urgency classifier maps
`d < 0` to the expired tier, `0 ≤ d ≤ 3` to critical, `4 ≤ d ≤ 7` to warning
and `d > 7` to ok. -/
theorem badge_tier_correct (d : Int) :
    (d < 0 → badge d = tierClass Tier.expired)
    ∧ (0 ≤ d ∧ d ≤ 3 → badge d = tierClass Tier.critical)
    ∧ (4 ≤ d ∧ d ≤ 7 → badge d = tierClass Tier.warning)
    ∧ (7 < d → badge d = tierClass Tier.ok) := by
  unfold badge tierClass
  refine ⟨?_, ?_, ?_, ?_⟩ <;> intro h <;> split_ifs <;> first | rfl | omega

/-- Witness for C1: the boundary values −1, 0, 3, 4, 7, 8 each land in the
tier the claim states. -/
theorem badge_tier_correct_witness :
    badge (-1) = tierClass Tier.expired
    ∧ badge 0 = tierClass Tier.critical
    ∧ badge 3 = tierClass Tier.critical
    ∧ badge 4 = tierClass Tier.warning
    ∧ badge 7 = tierClass Tier.warning
    ∧ badge 8 = tierClass Tier.ok :=
  ⟨(badge_tier_correct (-1)).1 (by decide),
   (badge_tier_correct 0).2.1 (by decide),
   (badge_tier_correct 3).2.1 (by decide),
   (badge_tier_correct 4).2.2.1 (by decide),
   (badge_tier_correct 7).2.2.1 (by decide),
   (badge_tier_correct 8).2.2.2 (by decide)⟩

/-- Flag `res.ok` of a call's response, `false` also on transport failure. -/
def NetResult.isOk : NetResult → Bool
  | NetResult.resp ok _ => ok
  | NetResult.netfail _ => false

/-- A concrete cached item, used in witnesses. -/
def sampleItem (k : Int) : Item :=
  { id := k, name := "Yaourt nature", category := "Dairy", perishable := true,
    dlc := "2024-01-01", location := "Fridge", created_at := "2023-12-01" }

/-- A concrete state with a validly filled form and two cached items. -/
def readyState : AppState :=
  { initialState with
    categories := ["Dairy"], locations := ["Fridge"],
    items := [sampleItem 7, sampleItem 8],
    form := { name := "Milk", category := "Dairy", perishable := true,
              dlc := "2024-01-01", location := "Fridge" } }

/-- A concrete submit oracle where creation and the refresh both succeed. -/
def okOracle : SubmitOracle :=
  { createRes := NetResult.resp true "", itemsRes := FetchResult.success [sampleItem 1] }

/-- State `readyState` with a whitespace-only name. -/
def blankNameState : AppState :=
  { readyState with form := { readyState.form with name := "   " } }

/-- C2: submitting a form whose name is empty/whitespace-only or whose dlc is
unset issues no network request and produces a validation error, in both
client copies. -/
theorem onSubmit_invalid_no_request (s : AppState) (o : SubmitOracle)
    (h : strTrim s.form.name = "" ∨ s.form.dlc = "") :
    (App.onSubmit s o).requests = []
    ∧ (App.onSubmit s o).state.error.isSome = true
    ∧ (AltApp.onSubmit s o).requests = []
    ∧ (AltApp.onSubmit s o).state.error.isSome = true := by
  unfold App.onSubmit AltApp.onSubmit
  rcases h with h | h
  · simp [h]
  · by_cases hn : strTrim s.form.name = "" <;> simp [hn, h]

/-- Witness for C2 at a whitespace-only name. -/
theorem onSubmit_invalid_no_request_witness :
    (App.onSubmit blankNameState okOracle).requests = []
    ∧ (App.onSubmit blankNameState okOracle).state.error.isSome = true
    ∧ (AltApp.onSubmit blankNameState okOracle).requests = []
    ∧ (AltApp.onSubmit blankNameState okOracle).state.error.isSome = true :=
  onSubmit_invalid_no_request blankNameState okOracle (Or.inl (by decide))

/-- C3: after a successful creation (and the follow-up list fetch), the
form's name and dlc are cleared, category/location/perishable are unchanged,
and the cached item list equals the freshly fetched server list, in both
client copies. -/
theorem onSubmit_success_resets_form_and_replaces_list (s : AppState) (o : SubmitOracle)
    (body : String) (data : List Item)
    (hn : strTrim s.form.name ≠ "") (hd : s.form.dlc ≠ "")
    (hc : o.createRes = NetResult.resp true body)
    (hi : o.itemsRes = FetchResult.success data) :
    ((App.onSubmit s o).state.form.name = ""
      ∧ (App.onSubmit s o).state.form.dlc = ""
      ∧ (App.onSubmit s o).state.form.category = s.form.category
      ∧ (App.onSubmit s o).state.form.location = s.form.location
      ∧ (App.onSubmit s o).state.form.perishable = s.form.perishable
      ∧ (App.onSubmit s o).state.items = data)
    ∧ ((AltApp.onSubmit s o).state.form.name = ""
      ∧ (AltApp.onSubmit s o).state.form.dlc = ""
      ∧ (AltApp.onSubmit s o).state.form.category = s.form.category
      ∧ (AltApp.onSubmit s o).state.form.location = s.form.location
      ∧ (AltApp.onSubmit s o).state.form.perishable = s.form.perishable
      ∧ (AltApp.onSubmit s o).state.items = data) := by
  unfold App.onSubmit AltApp.onSubmit
  simp [hn, hd, hc, hi, fetchItemsApply]

/-- Witness for C3 at `readyState` and a successful oracle. -/
theorem onSubmit_success_resets_form_and_replaces_list_witness :
    (App.onSubmit readyState okOracle).state.form.name = ""
    ∧ (App.onSubmit readyState okOracle).state.form.category = readyState.form.category
    ∧ (App.onSubmit readyState okOracle).state.items = [sampleItem 1] := by
  have h := onSubmit_success_resets_form_and_replaces_list readyState okOracle ""
    [sampleItem 1] (by decide) (by decide) rfl rfl
  exact ⟨h.1.1, h.1.2.2.1, h.1.2.2.2.2.2⟩

/-- C4: a successful disposal of id `k` removes exactly the items with id `k`
from the cached list, immediately and without any item-list fetch; the other
items remain in their original order (the new list is a sublist of the old
one containing every item whose id differs from `k`). -/
theorem disposeItem_success_removes_locally (s : AppState) (k : Int) (oc : Outcome)
    (body : String) :
    ((App.disposeItem s k oc (NetResult.resp true body)).state.items
        = s.items.filter (fun it => it.id != k)
      ∧ Request.getItems ∉ (App.disposeItem s k oc (NetResult.resp true body)).requests)
    ∧ ((AltApp.disposeItem s k oc (NetResult.resp true body)).state.items
        = s.items.filter (fun it => it.id != k)
      ∧ Request.getItems ∉ (AltApp.disposeItem s k oc (NetResult.resp true body)).requests)
    ∧ (∀ it ∈ (App.disposeItem s k oc (NetResult.resp true body)).state.items, it.id ≠ k)
    ∧ List.Sublist (App.disposeItem s k oc (NetResult.resp true body)).state.items s.items
    ∧ (∀ it ∈ s.items, it.id ≠ k →
        it ∈ (App.disposeItem s k oc (NetResult.resp true body)).state.items) := by
  refine ⟨⟨by simp [App.disposeItem], by simp [App.disposeItem]⟩,
          ⟨by simp [AltApp.disposeItem], by simp [AltApp.disposeItem]⟩, ?_, ?_, ?_⟩
  · intro it hit
    simp [App.disposeItem, List.mem_filter] at hit
    exact hit.2
  · simp [App.disposeItem]
  · intro it hit hne
    simp [App.disposeItem, List.mem_filter]
    exact ⟨hit, hne⟩

/-- Witness for C4: disposing id 7 from a two-item list leaves item 8 only. -/
theorem disposeItem_success_removes_locally_witness :
    (App.disposeItem readyState 7 Outcome.perdu (NetResult.resp true "")).state.items
      = [sampleItem 8]
    ∧ Request.getItems ∉
        (App.disposeItem readyState 7 Outcome.perdu (NetResult.resp true "")).requests := by
  have h := disposeItem_success_removes_locally readyState 7 Outcome.perdu ""
  refine ⟨?_, h.1.2⟩
  rw [h.1.1]
  decide

/-- C5: when the disposal call fails (non-ok response or transport failure),
the cached item list is unchanged and an error message is set, in both
client copies. -/
theorem disposeItem_failure_preserves_list (s : AppState) (k : Int) (oc : Outcome)
    (o : NetResult) (h : o.isOk = false) :
    ((App.disposeItem s k oc o).state.items = s.items
      ∧ (App.disposeItem s k oc o).state.error.isSome = true)
    ∧ ((AltApp.disposeItem s k oc o).state.items = s.items
      ∧ (AltApp.disposeItem s k oc o).state.error.isSome = true) := by
  cases o with
  | resp ok body =>
    simp only [NetResult.isOk] at h
    subst h
    simp [App.disposeItem, AltApp.disposeItem]
  | netfail m =>
    simp [App.disposeItem, AltApp.disposeItem]

/-- Witness for C5 at a non-ok response. -/
theorem disposeItem_failure_preserves_list_witness :
    (App.disposeItem readyState 7 Outcome.consomme (NetResult.resp false "boom")).state.items
      = readyState.items
    ∧ (App.disposeItem readyState 7 Outcome.consomme
        (NetResult.resp false "boom")).state.error.isSome = true :=
  (disposeItem_failure_preserves_list readyState 7 Outcome.consomme
    (NetResult.resp false "boom") (by decide)).1

/-- C6: the seeding guard reads the form snapshot captured when `fetchRefs`
was invoked (empty at mount), not the form at the moment the update is
applied: a category the user selected while the reference fetch was in
flight is overwritten by the first vocabulary element. -/
theorem fetchRefs_stale_guard_overwrites_user_pick :
    ({ initialState with form := { initialForm with category := "UserPick" } }
        : AppState).form.category = "UserPick"
    ∧ (fetchRefsRun initialForm (FetchResult.success ["Dairy"])
        (FetchResult.success ["Fridge"])
        { initialState with form := { initialForm with category := "UserPick" } }
        ).state.form.category = "Dairy" :=
  ⟨rfl, rfl⟩

/-- C7: `fetchRefs` issues both vocabulary requests (joined with
`Promise.all`) and applies no state change at all unless both succeed: if
either fetch fails, neither vocabulary nor any form default is applied. -/
theorem fetchRefs_concurrent_all_or_nothing (snapshot : Form)
    (catsRes locsRes : FetchResult (List String)) (s : AppState) :
    (fetchRefsRun snapshot catsRes locsRes s).requests
        = [Request.getCategories, Request.getLocations]
    ∧ (((∃ m, catsRes = FetchResult.failure m) ∨ (∃ m, locsRes = FetchResult.failure m)) →
        (fetchRefsRun snapshot catsRes locsRes s).state = s) := by
  cases catsRes <;> cases locsRes <;> simp [fetchRefsRun]

/-- Witness for C7: a failing categories fetch leaves the state untouched
while both requests were still issued. -/
theorem fetchRefs_concurrent_all_or_nothing_witness :
    (fetchRefsRun initialForm (FetchResult.failure "down")
        (FetchResult.success ["Fridge"]) readyState).state = readyState
    ∧ (fetchRefsRun initialForm (FetchResult.failure "down")
        (FetchResult.success ["Fridge"]) readyState).requests
        = [Request.getCategories, Request.getLocations] := by
  have h := fetchRefs_concurrent_all_or_nothing initialForm (FetchResult.failure "down")
    (FetchResult.success ["Fridge"]) readyState
  exact ⟨h.2 (Or.inl ⟨"down", rfl⟩), h.1⟩

/-- C10: when a successful reference load returns an empty categories
(resp. locations) vocabulary, the corresponding form field is left
unchanged: the first-element access sits under the non-emptiness guard, so
seeding never reads a missing first element. -/
theorem seeding_empty_vocab_leaves_field (snapshot : Form) (s : AppState) :
    (∀ locs, (fetchRefsRun snapshot (FetchResult.success [])
        (FetchResult.success locs) s).state.form.category = s.form.category)
    ∧ (∀ cats, (fetchRefsRun snapshot (FetchResult.success cats)
        (FetchResult.success []) s).state.form.location = s.form.location) := by
  constructor
  · intro locs
    simp only [fetchRefsRun, fetchRefsApply]
    split_ifs <;> cases locs <;> simp
  · intro cats
    simp only [fetchRefsRun, fetchRefsApply]
    split_ifs <;> cases cats <;> simp

/-- Witness for C10: an empty categories vocabulary leaves an empty category
field empty even though the snapshot guard passes. -/
theorem seeding_empty_vocab_leaves_field_witness :
    (fetchRefsRun initialForm (FetchResult.success [])
        (FetchResult.success ["Fridge"]) initialState).state.form.category
      = initialState.form.category :=
  (seeding_empty_vocab_leaves_field initialForm initialState).1 ["Fridge"]

/-- A concrete submit oracle whose creation call returns non-2xx with an
empty body. -/
def badCreateOracle : SubmitOracle :=
  { createRes := NetResult.resp false "", itemsRes := FetchResult.success [] }

/-- C9: a non-2xx response to creation or disposal surfaces the response
body text as the error message when it is non-empty, and the fixed fallback
`"Erreur API"` when the body is empty, in both client copies. -/
theorem non2xx_surfaces_body_or_fallback :
    (∀ (s : AppState) (o : SubmitOracle) (body : String),
        strTrim s.form.name ≠ "" → s.form.dlc ≠ "" →
        o.createRes = NetResult.resp false body →
        (App.onSubmit s o).state.error
            = some (if body = "" then "Erreur API" else body)
        ∧ (AltApp.onSubmit s o).state.error
            = some (if body = "" then "Erreur API" else body))
    ∧ (∀ (s : AppState) (k : Int) (oc : Outcome) (body : String),
        (App.disposeItem s k oc (NetResult.resp false body)).state.error
            = some (if body = "" then "Erreur API" else body)
        ∧ (AltApp.disposeItem s k oc (NetResult.resp false body)).state.error
            = some (if body = "" then "Erreur API" else body)) := by
  constructor
  · intro s o body hn hd hc
    unfold App.onSubmit AltApp.onSubmit
    simp [hn, hd, hc, errMsg]
  · intro s k oc body
    simp [App.disposeItem, AltApp.disposeItem, errMsg]

/-- Witness for C9: an empty body yields the generic fallback on creation,
a non-empty body is surfaced verbatim on disposal. -/
theorem non2xx_surfaces_body_or_fallback_witness :
    (App.onSubmit readyState badCreateOracle).state.error = some "Erreur API"
    ∧ (App.disposeItem readyState 7 Outcome.perdu
        (NetResult.resp false "stock introuvable")).state.error
      = some "stock introuvable" := by
  have h1 := (non2xx_surfaces_body_or_fallback.1 readyState badCreateOracle ""
    (by decide) (by decide) rfl).1
  have h2 := (non2xx_surfaces_body_or_fallback.2 readyState 7 Outcome.perdu
    "stock introuvable").1
  simp at h1 h2
  exact ⟨h1, h2⟩

/-- C8 counterexample: in the `part_000` copy a successful submission sets
the success message but schedules no timer, so that message is never
auto-cleared after 3 seconds. -/
theorem altApp_submit_schedules_no_autoclear :
    (AltApp.onSubmit readyState okOracle).state.message = some "Article ajouté ✅"
    ∧ (AltApp.onSubmit readyState okOracle).timers = [] := by
  constructor <;> decide

/-- C8 (amended): in the `App.tsx` copy, every feedback message or error set
by a submission or disposal comes with a scheduled 3000 ms timer whose
callback clears that feedback field; the `part_000` copy never schedules a
timer, so its feedback persists until a later action overwrites it. -/
theorem feedback_autoclear_per_copy :
    (∀ (s : AppState) (o : SubmitOracle),
        ((App.onSubmit s o).state.message.isSome = true →
          (3000, TimerAction.clearMessage) ∈ (App.onSubmit s o).timers)
        ∧ ((App.onSubmit s o).state.error.isSome = true →
          (3000, TimerAction.clearError) ∈ (App.onSubmit s o).timers))
    ∧ (∀ (s : AppState) (k : Int) (oc : Outcome) (o : NetResult),
        ((App.disposeItem s k oc o).state.message.isSome = true →
          (3000, TimerAction.clearMessage) ∈ (App.disposeItem s k oc o).timers)
        ∧ ((App.disposeItem s k oc o).state.error.isSome = true →
          (3000, TimerAction.clearError) ∈ (App.disposeItem s k oc o).timers))
    ∧ (∀ (s : AppState) (o : SubmitOracle), (AltApp.onSubmit s o).timers = [])
    ∧ (∀ (s : AppState) (k : Int) (oc : Outcome) (o : NetResult),
        (AltApp.disposeItem s k oc o).timers = [])
    ∧ (∀ st : AppState,
        fireTimer TimerAction.clearMessage st = { st with message := none }
        ∧ fireTimer TimerAction.clearError st = { st with error := none }) := by
  refine ⟨?_, ?_, ?_, ?_, ?_⟩
  · intro s o
    obtain ⟨cr, ir⟩ := o
    by_cases h1 : strTrim s.form.name = ""
    · simp [App.onSubmit, h1]
    · by_cases h2 : s.form.dlc = ""
      · simp [App.onSubmit, h1, h2]
      · cases cr with
        | netfail m => simp [App.onSubmit, h1, h2]
        | resp ok body =>
          cases ok with
          | false => simp [App.onSubmit, h1, h2]
          | true =>
            cases ir with
            | success data => simp [App.onSubmit, h1, h2, fetchItemsApply]
            | failure m => simp [App.onSubmit, h1, h2]
  · intro s k oc o
    cases o with
    | netfail m => simp [App.disposeItem]
    | resp ok body => cases ok <;> simp [App.disposeItem]
  · intro s o
    obtain ⟨cr, ir⟩ := o
    by_cases h1 : strTrim s.form.name = ""
    · simp [AltApp.onSubmit, h1]
    · by_cases h2 : s.form.dlc = ""
      · simp [AltApp.onSubmit, h1, h2]
      · cases cr with
        | netfail m => simp [AltApp.onSubmit, h1, h2]
        | resp ok body =>
          cases ok with
          | false => simp [AltApp.onSubmit, h1, h2]
          | true =>
            cases ir with
            | success data => simp [AltApp.onSubmit, h1, h2, fetchItemsApply]
            | failure m => simp [AltApp.onSubmit, h1, h2]
  · intro s k oc o
    cases o with
    | netfail m => simp [AltApp.disposeItem]
    | resp ok body => cases ok <;> simp [AltApp.disposeItem]
  · intro st
    exact ⟨rfl, rfl⟩

/-- Witness for the amended C8: at a concrete successful submission, the
`App.tsx` copy schedules the message-clearing timer and the `part_000` copy
schedules none. -/
theorem feedback_autoclear_per_copy_witness :
    (3000, TimerAction.clearMessage) ∈ (App.onSubmit readyState okOracle).timers
    ∧ (AltApp.onSubmit readyState okOracle).timers = [] := by
  have h := feedback_autoclear_per_copy
  exact ⟨(h.1 readyState okOracle).1 (by decide), h.2.2.1 readyState okOracle⟩

end MiracleBox
